import Mathlib

/-!
Verification development for the `num-runtime-fmt` crate: a runtime numeric
text formatter.  The data model (`Align`, `Base`, `Sign`, `NumFmt`, `Dynamic`,
`Builder`), the digit sources (`Numeric` and its constructors, mirroring
`src/numeric_trait/impls.rs`), and the configuration-string grammar
(`NumFmt.from_str`, mirroring the anchored regex of `src/parse.rs`) are
embedded from the source.  The rendering engine `NumFmt.fmt_with` itself is
modelled from the spec (see its doc comment): the released engine returning
`Result<String, Error>` is absent from the provided sources, which contain
only a stale draft iteration of `num_fmt.rs`; the model is validated below
against the expected outputs recorded in the repository's own test suite
(`tests/format.rs`) and doctests.

Digit lists that travel through the engine are kept least-significant-first
(LSF), exactly as the Rust digit iterators yield them; they are reversed to
most-significant-first (MSF) display order at assembly time, as the Rust code
does with `digits.into_iter().rev()`.
-/

namespace NumRuntimeFmt

/-- Positioning of the rendered number within the allotted width
(`src/align.rs`). -/
inductive Align where
  | Left
  | Center
  | Right
  | Decimal
deriving DecidableEq

/-- The base / format with which to represent a number (`src/base.rs`). -/
inductive Base where
  | Binary
  | Octal
  | Decimal
  | LowerHex
  | UpperHex
deriving DecidableEq

/-- Whether to render a sign sigil (`src/sign.rs`). -/
inductive Sign where
  | PlusAndMinus
  | OnlyMinus
deriving DecidableEq

/-- Formatter configuration (`NumFmt` in `src/num_fmt.rs`, field list as
built by `src/builder.rs`). -/
structure NumFmt where
  fill : Option Char
  align : Align
  sign : Sign
  hash : Bool
  zero : Bool
  width : Nat
  precision : Option Nat
  base : Base
  separator : Option Char
  spacing : Option Nat
  decimal_separator : Option Char
deriving DecidableEq

/-- The all-default configuration (`NumFmt::default()` /
`Builder::default().build()`). -/
def NumFmt.default : NumFmt :=
  { fill := none, align := .Right, sign := .OnlyMinus, hash := false,
    zero := false, width := 0, precision := none, base := .Decimal,
    separator := none, spacing := none, decimal_separator := none }

/-- Container for setting certain parameters dynamically (`src/dynamic.rs`). -/
structure Dynamic where
  width : Option Nat
  precision : Option Nat
  spacing : Option Nat
deriving DecidableEq

/-- Model of `Dynamic::default()`: all parameters deferred to the configuration. -/
def Dynamic.default : Dynamic := ⟨none, none, none⟩

/-- Model of `Dynamic::width(w)`. -/
def Dynamic.ofWidth (w : Nat) : Dynamic := ⟨some w, none, none⟩

/-- Model of `Dynamic::precision(p)`. -/
def Dynamic.ofPrecision (p : Nat) : Dynamic := ⟨none, some p, none⟩

/-- Model of `Dynamic::spacing(s)`. -/
def Dynamic.ofSpacing (s : Nat) : Dynamic := ⟨none, none, some s⟩

/-- Builder for a numeric formatter (`src/builder.rs`).  Fields mirror the
Rust struct; `build` transfers them into a `NumFmt` (the `format` field
becomes `base`). -/
structure Builder where
  fill : Option Char
  align : Align
  sign : Sign
  hash : Bool
  zero : Bool
  width : Nat
  precision : Option Nat
  format : Base
  separator : Option Char
  spacing : Option Nat
  decimal_separator : Option Char

/-- Model of `Builder::new()` / `Builder::default()`. -/
def Builder.new : Builder :=
  { fill := none, align := .Right, sign := .OnlyMinus, hash := false,
    zero := false, width := 0, precision := none, format := .Decimal,
    separator := none, spacing := none, decimal_separator := none }

/-- Model of `Builder::build`. -/
def Builder.build (b : Builder) : NumFmt :=
  { fill := b.fill, align := b.align, sign := b.sign, hash := b.hash,
    zero := b.zero, width := b.width, precision := b.precision,
    base := b.format, separator := b.separator, spacing := b.spacing,
    decimal_separator := b.decimal_separator }

/-- Model of `Builder::fill`. -/
def Builder.withFill (b : Builder) (c : Char) : Builder := { b with fill := some c }

/-- Model of `Builder::align`. -/
def Builder.withAlign (b : Builder) (a : Align) : Builder := { b with align := a }

/-- Model of `Builder::sign`. -/
def Builder.withSign (b : Builder) (s : Sign) : Builder := { b with sign := s }

/-- Model of `Builder::hash`. -/
def Builder.withHash (b : Builder) (set : Bool) : Builder := { b with hash := set }

/-- Model of `Builder::zero`: setting the zero handler also forces the fill character
to `'0'`; clearing it clears the custom fill. -/
def Builder.withZero (b : Builder) (set : Bool) : Builder :=
  if set then { b with fill := some '0', zero := true }
  else { b with fill := none, zero := false }

/-- Model of `Builder::width`. -/
def Builder.withWidth (b : Builder) (w : Nat) : Builder := { b with width := w }

/-- Model of `Builder::precision`. -/
def Builder.withPrecision (b : Builder) (p : Option Nat) : Builder := { b with precision := p }

/-- Model of `Builder::base`. -/
def Builder.withBase (b : Builder) (f : Base) : Builder := { b with format := f }

/-- Model of `Builder::separator`. -/
def Builder.withSeparator (b : Builder) (c : Option Char) : Builder := { b with separator := c }

/-- Model of `Builder::spacing`. -/
def Builder.withSpacing (b : Builder) (s : Nat) : Builder := { b with spacing := some s }

/-- Model of `Builder::decimal_separator`. -/
def Builder.withDecimalSeparator (b : Builder) (c : Char) : Builder :=
  { b with decimal_separator := some c }

/-!  Digit sources.

The `Numeric` trait (`src/numeric_trait/mod.rs`) supplies, per value, an
optional iterator of digit characters for each base (least-significant
first), a pair of decimal digit iterators (integer part, LSF; optional
fractional part, nearest-to-decimal-point first), and a sign predicate.  The
engine also surfaces a type identifier for error diagnostics.  We materialise
the iterators as lists. -/

/-- Digit-source result for one value: the data the `Numeric` trait yields. -/
structure Numeric where
  binary : Option (List Char)
  octal : Option (List Char)
  hex : Option (List Char)
  dec_left : List Char
  dec_right : Option (List Char)
  is_negative : Bool
  type_name : String

/-- Character for digit value `d` (lowercase letters above 9), as produced by
the masking iterators in `src/numeric_trait/impls.rs`. -/
def digitChar (d : Nat) : Char :=
  if d < 10 then Char.ofNat (48 + d) else Char.ofNat (87 + d)

/-- Fuel-driven base-`b` digit extraction, least-significant first.  Mirrors
the `BinIter`/`OctIter`/`HexIter` loop: yields nothing for `0`, otherwise
`digitChar (n % b)` followed by the digits of `n / b`. -/
def natDigitsAux (b : Nat) : Nat → Nat → List Char
  | 0, _ => []
  | _ + 1, 0 => []
  | fuel + 1, n + 1 => digitChar ((n + 1) % b) :: natDigitsAux b fuel ((n + 1) / b)

/-- Base-`b` digits of `n`, least-significant first; empty exactly for 0. -/
def natDigitsLSF (b n : Nat) : List Char := natDigitsAux b n n

/-- Decimal digits of a nonnegative integer, least-significant first, as
`DecIter::new` yields them: `to_string` never prints an empty string, so the
integer part of `0` is `['0']`, never empty. -/
def decDigits (n : Nat) : List Char :=
  if n = 0 then ['0'] else natDigitsLSF 10 n

/-- Digit source of an unsigned integer (`impl_for!(unsigned_int ...)`):
all four integer bases available, no fractional part, never negative. -/
def Numeric.ofNat (n : Nat) : Numeric :=
  { binary := some (natDigitsLSF 2 n)
    octal := some (natDigitsLSF 8 n)
    hex := some (natDigitsLSF 16 n)
    dec_left := decDigits n
    dec_right := none
    is_negative := false
    type_name := "u64" }

/-- Digit source of a signed integer (`impl_for!(signed_int ...)`): decimal
digits of the absolute value, `is_negative` from the sign.  The non-decimal
iterators are constructed from the raw value in Rust, whose masking loop is
debug-asserted to receive a nonnegative input; we model them on the
magnitude, which is exact for nonnegative values. -/
def Numeric.ofInt (i : Int) : Numeric :=
  { binary := some (natDigitsLSF 2 i.natAbs)
    octal := some (natDigitsLSF 8 i.natAbs)
    hex := some (natDigitsLSF 16 i.natAbs)
    dec_left := decDigits i.natAbs
    dec_right := none
    is_negative := decide (i < 0)
    type_name := "i64" }

/-- Digit source of a float (`impl_for!(float ...)`): binary/octal/hex are
`None`; decimal digits come from `DecIter::new(self.abs())`, which splits the
`Display` representation `"<ip>.<frac>"` at the point and suppresses a
fractional part that is empty or exactly `['0']`.  `ip` is the integer part
and `frac` the fractional digit characters of the display string. -/
def Numeric.ofFloat (neg : Bool) (ip : Nat) (frac : List Char) : Numeric :=
  { binary := none
    octal := none
    hex := none
    dec_left := decDigits ip
    dec_right := if frac = [] ∨ frac = ['0'] then none else some frac
    is_negative := neg
    type_name := "f64" }

/-! Configuration accessors (`src/num_fmt.rs`). -/

/-- Accessor `NumFmt::fill()`: configured fill or the default space. -/
def NumFmt.fillChar (f : NumFmt) : Char := f.fill.getD ' '

/-- Accessor `NumFmt::separator()` with its default applied: a configured separator or `','`. -/
def NumFmt.separatorChar (f : NumFmt) : Char := f.separator.getD ','

/-- Accessor `NumFmt::spacing()`: configured group size or the default 3. -/
def NumFmt.spacingVal (f : NumFmt) : Nat := f.spacing.getD 3

/-- Accessor `NumFmt::decimal_separator()`: configured decimal point or `'.'`. -/
def NumFmt.decimalSepChar (f : NumFmt) : Char := f.decimal_separator.getD '.'

/-- Accessor `NumFmt::width_with`: dynamic width override or configured width. -/
def NumFmt.width_with (f : NumFmt) (d : Dynamic) : Nat := d.width.getD f.width

/-- Accessor `NumFmt::precision_with`: dynamic precision override or configured
precision. -/
def NumFmt.precision_with (f : NumFmt) (d : Dynamic) : Option Nat :=
  match d.precision with
  | some p => some p
  | none => f.precision

/-- Accessor `NumFmt::spacing_with`: dynamic spacing override or configured spacing. -/
def NumFmt.spacing_with (f : NumFmt) (d : Dynamic) : Nat := d.spacing.getD f.spacingVal

/-- Whether digit grouping is performed at all.  Modelled from the spec and
the repository's tests: parsing `""` yields no grouping, while a builder that
sets only `spacing` groups with the default `','` separator (tests
`separator::not_separated`, `only_spacing::two`, `only_spacing::four`), so
grouping is active exactly when a separator or a spacing is configured. -/
def NumFmt.groupingActive (f : NumFmt) : Bool := f.separator.isSome || f.spacing.isSome

/-! Grouping, zero-padding and trimming primitives of the engine. -/

/-- Split an LSF digit list into chunks of `sp + 1` digits, ones digit
first.  Fuel-driven for structural recursion; `fuel = ds.length` always
suffices. -/
def chunksAux (sp : Nat) : Nat → List Char → List (List Char)
  | 0, _ => []
  | _, [] => []
  | fuel + 1, ds => ds.take (sp + 1) :: chunksAux sp fuel (ds.drop (sp + 1))

/-- Interleave a separator between chunks (never trailing). -/
def joinSep (sep : Char) : List (List Char) → List Char
  | [] => []
  | [c] => c
  | c :: rest => c ++ sep :: joinSep sep rest

/-- Insert `sep` after every `sp` digits of an LSF digit sequence, counting
from the ones digit, as `iterext`'s `separate` does.  A `sp` of 0 is left
ungrouped (the grammar and tests never produce it). -/
def groupLSF (sep : Char) (sp : Nat) (ds : List Char) : List Char :=
  match sp with
  | 0 => ds
  | sp + 1 => joinSep sep (chunksAux sp ds.length ds)

/-- Zero-pad an LSF digit sequence toward the most-significant end up to
`target` digits (appending, since the list is least-significant first). -/
def padZerosLSF (target : Nat) (ds : List Char) : List Char :=
  ds ++ List.replicate (target - ds.length) '0'

/-- Strip spurious characters from the most-significant end of the grouped
integer part (an MSF list): repeatedly drop a leading `'0'` or separator so
long as the tracked width (remaining integer characters plus `fracLen`)
still exceeds `target`.  Modelled from spec step 7. -/
def trimWhile (sep : Char) (target fracLen : Nat) : List Char → List Char
  | [] => []
  | c :: rest =>
    if (c = '0' || c = sep) && decide (target < rest.length + 1 + fracLen) then
      trimWhile sep target fracLen rest
    else c :: rest

/-! The rendering engine, stage by stage. -/

/-- Computes whether the value renders negative: it reports negative and
the base is decimal (non-decimal bases are unsigned magnitude renderings). -/
def NumFmt.isNegativeFor (f : NumFmt) (v : Numeric) : Bool :=
  v.is_negative && decide (f.base = .Decimal)

/-- The sign sigil, if any: `PlusAndMinus` always yields a sign; `OnlyMinus`
yields `'-'` only when rendering negative. -/
def NumFmt.sign_char (f : NumFmt) (v : Numeric) : Option Char :=
  match f.sign, f.isNegativeFor v with
  | .PlusAndMinus, neg => some (if neg then '-' else '+')
  | .OnlyMinus, true => some '-'
  | .OnlyMinus, false => none

/-- The sign sigil as a (zero- or one-element) character list. -/
def NumFmt.signChars (f : NumFmt) (v : Numeric) : List Char :=
  match f.sign_char v with
  | some c => [c]
  | none => []

/-- The base prefix emitted under the hash flag: `0b`/`0o`/`0d`/`0x`. -/
def NumFmt.baseMarker (f : NumFmt) : List Char :=
  if f.hash then
    match f.base with
    | .Binary => ['0', 'b']
    | .Octal => ['0', 'o']
    | .Decimal => ['0', 'd']
    | .LowerHex => ['0', 'x']
    | .UpperHex => ['0', 'x']
  else []

/-- Raw LSF digit sequence from the digit source for the requested base;
`none` when the base has no representation for the value's type.  Upper hex
is the lowercase source sequence uppercased by the engine. -/
def NumFmt.rawDigits (f : NumFmt) (v : Numeric) : Option (List Char) :=
  match f.base with
  | .Binary => v.binary
  | .Octal => v.octal
  | .Decimal => some v.dec_left
  | .LowerHex => v.hex
  | .UpperHex => v.hex.map (List.map Char.toUpper)

/-- Zero-padding target: the effective width, minus 2 when the hash flag
will emit a base prefix, minus 1 when a sign character will be shown,
clamped to a minimum of 1 (spec step 4). -/
def NumFmt.zeroPadTarget (f : NumFmt) (v : Numeric) (d : Dynamic) : Nat :=
  max 1 (f.width_with d - (if f.hash then 2 else 0)
    - (if (f.sign_char v).isSome then 1 else 0))

/-- Integer-part LSF digits after normalisation: an empty sequence becomes a
single synthesized `'0'`; under the zero flag the sequence is then
zero-padded up to the zero-padding target. -/
def NumFmt.intDigitsLSF (f : NumFmt) (v : Numeric) (d : Dynamic) : Option (List Char) :=
  (f.rawDigits v).map fun ds =>
    let ds := if ds.isEmpty then ['0'] else ds
    if f.zero then padZerosLSF (f.zeroPadTarget v d) ds else ds

/-- Integer-part LSF sequence after grouping: when grouping is active the
separator runs through the (possibly zero-padded) digits every
`spacing_with` digits, counted from the ones digit. -/
def NumFmt.groupedLSF (f : NumFmt) (v : Numeric) (d : Dynamic) : Option (List Char) :=
  (f.intDigitsLSF v d).map fun ds =>
    if f.groupingActive then groupLSF f.separatorChar (f.spacing_with d) ds else ds

/-- Fractional digits in display order (nearest the point first), following
the `match (right, precision)` of the engine: with a precision the source
digits are truncated or right-padded with `'0'` to exactly that many; with
no precision they pass through; they exist only for the decimal base. -/
def NumFmt.fracChars (f : NumFmt) (v : Numeric) (d : Dynamic) : Option (List Char) :=
  match f.base, v.dec_right, f.precision_with d with
  | .Decimal, some ds, none => some ds
  | .Decimal, some ds, some p => some ((ds ++ List.replicate p '0').take p)
  | .Decimal, none, some p => some (List.replicate p '0')
  | _, _, _ => none

/-- Fractional display characters: decimal separator followed by the
fractional digits whenever a fractional part exists (even an empty one). -/
def NumFmt.fracStr (f : NumFmt) (v : Numeric) (d : Dynamic) : List Char :=
  match f.fracChars v d with
  | none => []
  | some ds => f.decimalSepChar :: ds

/-- Integer part in display (MSF) order, after the zero-flag trimming of
spec step 7: under the zero flag, leading `'0'`/separator characters are
stripped while the decimal anchor (for DecimalPoint alignment) or the whole
composed width (otherwise) overshoots the zero-padding target. -/
def NumFmt.intStrTrimmed (f : NumFmt) (v : Numeric) (d : Dynamic) : Option (List Char) :=
  (f.groupedLSF v d).map fun g =>
    let ms := g.reverse
    if f.zero then
      if f.align = .Decimal then
        trimWhile f.separatorChar (f.zeroPadTarget v d) 0 ms
      else
        trimWhile f.separatorChar (f.zeroPadTarget v d) (f.fracStr v d).length ms
    else ms

/-- The composed body: integer part (grouped, zero-padded, trimmed) followed
by the fractional part. -/
def NumFmt.bodyChars (f : NumFmt) (v : Numeric) (d : Dynamic) : Option (List Char) :=
  (f.intStrTrimmed v d).map (· ++ f.fracStr v d)

/-- Decimal anchor: number of integer-part characters after grouping, used
by DecimalPoint alignment. -/
def NumFmt.anchorOf (f : NumFmt) (v : Numeric) (d : Dynamic) : Nat :=
  ((f.intStrTrimmed v d).getD []).length

/-- Front and rear padding amounts (spec step 9, and the saturating
adjustments of the engine): alignment distributes `width - used`; Center
gives the odd column to the front; DecimalPoint pads the front by
`width - anchor` only.  The front deficit then drops 1 when a sign is shown
and budgeted (zero flag, or a non-`'0'` fill) and 2 when a base prefix is
shown. -/
def NumFmt.paddings (f : NumFmt) (v : Numeric) (d : Dynamic) : Nat × Nat :=
  let used := ((f.bodyChars v d).getD []).length
  let w := f.width_with d
  let fr := match f.align with
    | .Right => (w - used, 0)
    | .Left => (0, w - used)
    | .Center => (w - used - (w - used) / 2, (w - used) / 2)
    | .Decimal => (w - f.anchorOf v d, 0)
  let front := fr.1 - (if (f.sign_char v).isSome && (f.zero || !(f.fillChar = '0')) then 1 else 0)
  let front := front - (if f.hash then 2 else 0)
  (front, fr.2)

/-- Final character assembly (spec step 10): with an effective `'0'` fill
(which every zero-flag configuration has) the order is sign, base prefix,
left padding, digits; otherwise left padding, sign, base prefix, digits,
right padding. -/
def NumFmt.assembleChars (f : NumFmt) (v : Numeric) (d : Dynamic) : List Char :=
  let body := (f.bodyChars v d).getD []
  let p := f.paddings v d
  if f.fillChar = '0' ∨ f.zero = true then
    f.signChars v ++ f.baseMarker ++ List.replicate p.1 f.fillChar ++ body
      ++ List.replicate p.2 f.fillChar
  else
    List.replicate p.1 f.fillChar ++ f.signChars v ++ f.baseMarker ++ body
      ++ List.replicate p.2 f.fillChar

/-- Format-time error taxonomy (`Error` re-exported from `num_fmt` by
`src/lib.rs`, variants as matched by `tests/format.rs`).  `NotImplemented`
is what the spec calls `UnsupportedBase`: it carries the offending base and
a type identifier. -/
inductive Error where
  | IncompatibleAlignment (a : Align)
  | NotImplemented (b : Base) (t : String)
deriving DecidableEq

/-- Modelled from the spec: the released rendering engine
`NumFmt::fmt_with` returning `Result<String, Error>`, which is missing from
the provided sources (only a stale draft of `num_fmt.rs` is present; the
re-export in `src/lib.rs` and the expectations of `tests/format.rs` are its
declaration and callers).  Following spec section 4: the zero flag demands
Right or DecimalPoint alignment, else `IncompatibleAlignment`; a base with
no digit-source representation yields `NotImplemented` (the spec's
`UnsupportedBase`); otherwise the digits are normalised, zero-padded,
grouped, composed with the fractional part, trimmed, and assembled with
sign, base prefix and alignment padding.  Every stage is validated against
the literal expectations of `tests/format.rs` below. -/
def NumFmt.fmt_with (f : NumFmt) (v : Numeric) (d : Dynamic) : Except Error String :=
  if f.zero = true ∧ f.align ≠ .Right ∧ f.align ≠ .Decimal then
    .error (.IncompatibleAlignment f.align)
  else
    match f.rawDigits v with
    | none => .error (.NotImplemented f.base v.type_name)
    | some _ => .ok (String.mk (f.assembleChars v d))

/-- Model of `NumFmt::fmt`: formatting with all-default dynamic parameters. -/
def NumFmt.fmt (f : NumFmt) (v : Numeric) : Except Error String :=
  f.fmt_with v Dynamic.default

/-!  The configuration-string grammar (`src/parse.rs`).

The anchored regex
`^((fill)?(align))?(sign)?(hash)?((zero)?(width))?(\.(precision))?(format)?((separator)(spacing)?)?$`
is deterministic up to two local choice points, resolved exactly as the
regex engine does: a fill is recognised only when the following character is
an alignment sigil, and a `'0'` starts the zero flag only when followed by a
nonzero-led width.  All numeric fields are greedy digit runs. -/

/-- Alignment sigil table of the grammar. -/
def alignOfChar (c : Char) : Option Align :=
  if c = '<' then some .Left
  else if c = '^' then some .Center
  else if c = '>' then some .Right
  else if c = 'v' then some .Decimal
  else none

/-- Base sigil table of the grammar. -/
def baseOfChar (c : Char) : Option Base :=
  if c = 'b' then some .Binary
  else if c = 'o' then some .Octal
  else if c = 'd' then some .Decimal
  else if c = 'x' then some .LowerHex
  else if c = 'X' then some .UpperHex
  else none

/-- Greedy run of ASCII digits. -/
def takeDigitsAux : List Char → List Char × List Char
  | [] => ([], [])
  | c :: rest =>
    if c.isDigit then
      let p := takeDigitsAux rest
      (c :: p.1, p.2)
    else ([], c :: rest)

/-- Decimal value of a digit run. -/
def digitsToNat (ds : List Char) : Nat :=
  ds.foldl (fun acc c => acc * 10 + (c.toNat - 48)) 0

/-- Grammar item `[[fill]align]`: a fill is any single character immediately followed by
an alignment sigil. -/
def parseFillAlign : List Char → Option Char × Option Align × List Char
  | c1 :: c2 :: rest =>
    match alignOfChar c2 with
    | some a => (some c1, some a, rest)
    | none =>
      match alignOfChar c1 with
      | some a => (none, some a, c2 :: rest)
      | none => (none, none, c1 :: c2 :: rest)
  | [c1] =>
    match alignOfChar c1 with
    | some a => (none, some a, [])
    | none => (none, none, [c1])
  | [] => (none, none, [])

/-- Grammar item `[sign]`. -/
def parseSignChars : List Char → Option Sign × List Char
  | '-' :: rest => (some .OnlyMinus, rest)
  | '+' :: rest => (some .PlusAndMinus, rest)
  | l => (none, l)

/-- Grammar item `['#']`. -/
def parseHashChar : List Char → Bool × List Char
  | '#' :: rest => (true, rest)
  | l => (false, l)

/-- Grammar item `[['0']width]`: the width digits must not start with `'0'`; a `'0'`
directly before such a width sets the zero flag. -/
def parseZeroWidth : List Char → Bool × Option Nat × List Char
  | '0' :: c :: rest =>
    if '1' ≤ c ∧ c ≤ '9' then
      let p := takeDigitsAux (c :: rest)
      (true, some (digitsToNat p.1), p.2)
    else (false, none, '0' :: c :: rest)
  | c :: rest =>
    if '1' ≤ c ∧ c ≤ '9' then
      let p := takeDigitsAux (c :: rest)
      (false, some (digitsToNat p.1), p.2)
    else (false, none, c :: rest)
  | [] => (false, none, [])

/-- Grammar item `['.' precision]`: a point must be followed by at least one digit, or
the whole string fails to match (nothing later can consume the point). -/
def parsePrecisionChars : List Char → Option (Option Nat × List Char)
  | '.' :: rest =>
    let p := takeDigitsAux rest
    if p.1.isEmpty then none else some (some (digitsToNat p.1), p.2)
  | l => some (none, l)

/-- Grammar item `[format]`. -/
def parseBaseChar : List Char → Option Base × List Char
  | c :: rest =>
    match baseOfChar c with
    | some b => (some b, rest)
    | none => (none, c :: rest)
  | [] => (none, [])

/-- Grammar item `[separator[spacing]]`: separator is one of `'_'`, `','`, `' '`, then an
optional digit run. -/
def parseSepSpacing : List Char → Option Char × Option Nat × List Char
  | c :: rest =>
    if c = '_' ∨ c = ',' ∨ c = ' ' then
      let p := takeDigitsAux rest
      (some c, if p.1.isEmpty then none else some (digitsToNat p.1), p.2)
    else (none, none, c :: rest)
  | [] => (none, none, [])

/-- Parse error taxonomy of `src/parse.rs` (`ParseInt` cannot occur in the
model, where numerals are unbounded). -/
inductive ParseError where
  | NoMatch
  | ParseInt (s : String)
deriving DecidableEq

/-- Model of `NumFmt::from_str`: run the grammar, then apply the matched fields to a
builder in the source's order — in particular the zero flag is applied after
the fill, so it overwrites any matched fill with `'0'`. -/
def NumFmt.from_str (s : String) : Except ParseError NumFmt :=
  let p1 := parseFillAlign s.toList
  let p2 := parseSignChars p1.2.2
  let p3 := parseHashChar p2.2
  let p4 := parseZeroWidth p3.2
  match parsePrecisionChars p4.2.2 with
  | none => .error .NoMatch
  | some p5 =>
    let p6 := parseBaseChar p5.2
    let p7 := parseSepSpacing p6.2
    if p7.2.2.isEmpty then
      .ok { fill := if p4.1 then some '0' else p1.1
            align := (p1.2.1).getD .Right
            sign := p2.1.getD .OnlyMinus
            hash := p3.1
            zero := p4.1
            width := (p4.2.1).getD 0
            precision := p5.1
            base := p6.1.getD .Decimal
            separator := p7.1
            spacing := p7.2.1
            decimal_separator := none }
    else .error .NoMatch

/-!  Validation of the modelled engine against the repository's own test
suite (`tests/format.rs`) and the doctests of `src/lib.rs`.  Each theorem
evaluates the model on the literal inputs of one test module and compares
with the recorded expected output. -/

/-- Decidable equality for `Except` results, so the validation theorems can
be settled by evaluation. -/
instance {ε α : Type} [DecidableEq ε] [DecidableEq α] : DecidableEq (Except ε α) := fun x y =>
  match x, y with
  | .ok a, .ok b => if h : a = b then .isTrue (by rw [h]) else .isFalse (by simp [h])
  | .error a, .error b => if h : a = b then .isTrue (by rw [h]) else .isFalse (by simp [h])
  | .ok _, .error _ => .isFalse (by simp)
  | .error _, .ok _ => .isFalse (by simp)

/-- Parse a format string and render a value with it, with dynamic
parameters: the composition exercised by the tests. -/
def rendersWith (s : String) (d : Dynamic) (v : Numeric) : Except ParseError (Except Error String) :=
  (NumFmt.from_str s).map fun f => f.fmt_with v d

/-- Parse a format string and render a value with it. -/
def renders (s : String) (v : Numeric) : Except ParseError (Except Error String) :=
  rendersWith s Dynamic.default v

/-- Validation: test module `fill`. -/
theorem check_fill :
    [renders ":<5" (.ofInt 1), renders ":^5" (.ofInt 1), renders ":^4" (.ofInt 1),
     renders ":>5" (.ofInt 1), renders ":v5" (.ofInt 1),
     renders ":<5" (.ofFloat false 1 ['1']), renders ":^5" (.ofFloat false 1 ['1']),
     renders ":^6" (.ofFloat false 1 ['1']), renders ":>5" (.ofFloat false 1 ['1']),
     renders ":v5" (.ofFloat false 1 ['1']), renders ":v5" (.ofFloat false 11 ['1'])]
    = [.ok (.ok "1::::"), .ok (.ok "::1::"), .ok (.ok "::1:"),
       .ok (.ok "::::1"), .ok (.ok "::::1"),
       .ok (.ok "1.1::"), .ok (.ok ":1.1:"),
       .ok (.ok "::1.1:"), .ok (.ok "::1.1"),
       .ok (.ok "::::1.1"), .ok (.ok ":::11.1")] := by decide

/-- Validation: test module `align`. -/
theorem check_align :
    [renders "<5" (.ofInt 1), renders "^5" (.ofInt 1), renders "^4" (.ofInt 1),
     renders ">5" (.ofInt 1), renders "v5" (.ofInt 1),
     renders "<5" (.ofFloat false 1 ['1']), renders "^5" (.ofFloat false 1 ['1']),
     renders "^6" (.ofFloat false 1 ['1']), renders ">5" (.ofFloat false 1 ['1']),
     renders "v5" (.ofFloat false 1 ['1']), renders "v5" (.ofFloat false 11 ['1'])]
    = [.ok (.ok "1    "), .ok (.ok "  1  "), .ok (.ok "  1 "),
       .ok (.ok "    1"), .ok (.ok "    1"),
       .ok (.ok "1.1  "), .ok (.ok " 1.1 "),
       .ok (.ok "  1.1 "), .ok (.ok "  1.1"),
       .ok (.ok "    1.1"), .ok (.ok "   11.1")] := by decide

/-- Validation: test module `sign`. -/
theorem check_sign :
    [renders "" (.ofInt 1), renders "" (.ofInt (-1)), renders "+" (.ofInt 1),
     renders "+" (.ofInt (-1)), renders "-" (.ofInt 1), renders "-" (.ofInt (-1)),
     renders "" (.ofFloat false 1 ['1']), renders "" (.ofFloat true 1 ['1']),
     renders "+" (.ofFloat false 1 ['1']), renders "+" (.ofFloat true 1 ['1']),
     renders "-" (.ofFloat false 1 ['1']), renders "-" (.ofFloat true 1 ['1'])]
    = [.ok (.ok "1"), .ok (.ok "-1"), .ok (.ok "+1"),
       .ok (.ok "-1"), .ok (.ok "1"), .ok (.ok "-1"),
       .ok (.ok "1.1"), .ok (.ok "-1.1"),
       .ok (.ok "+1.1"), .ok (.ok "-1.1"),
       .ok (.ok "1.1"), .ok (.ok "-1.1")] := by decide

/-- Validation: test module `hash`. -/
theorem check_hash :
    [renders "#b" (.ofInt 15), renders "#o" (.ofInt 15), renders "#" (.ofInt 15),
     renders "#d" (.ofInt 15), renders "#x" (.ofInt 15), renders "#X" (.ofInt 15),
     renders "#" (.ofFloat false 1 ['1']), renders "#d" (.ofFloat false 1 ['1'])]
    = [.ok (.ok "0b1111"), .ok (.ok "0o17"), .ok (.ok "0d15"),
       .ok (.ok "0d15"), .ok (.ok "0xf"), .ok (.ok "0xF"),
       .ok (.ok "0d1.1"), .ok (.ok "0d1.1")] := by decide

/-- Validation: test module `zero` (successful renders). -/
theorem check_zero :
    [renders "01" (.ofInt 1), renders "01" (.ofFloat false 1 ['1']),
     renders "05" (.ofInt 1), renders "05" (.ofInt (-1)),
     renders "05" (.ofFloat false 1 ['1']), renders "05" (.ofFloat true 1 ['1']),
     renders ">05" (.ofInt 1), renders ">05" (.ofInt (-1)),
     renders ">05" (.ofFloat false 1 ['1']), renders ">05" (.ofFloat true 1 ['1']),
     renders "v05" (.ofInt 1), renders "v05" (.ofInt (-1)),
     renders "v05" (.ofFloat false 1 ['1']), renders "v05" (.ofFloat true 1 ['1'])]
    = [.ok (.ok "1"), .ok (.ok "1.1"),
       .ok (.ok "00001"), .ok (.ok "-0001"),
       .ok (.ok "001.1"), .ok (.ok "-01.1"),
       .ok (.ok "00001"), .ok (.ok "-0001"),
       .ok (.ok "001.1"), .ok (.ok "-01.1"),
       .ok (.ok "00001"), .ok (.ok "-0001"),
       .ok (.ok "00001.1"), .ok (.ok "-0001.1")] := by decide

/-- Validation: test module `zero` (`fmt_fail` cases expecting
`IncompatibleAlignment`). -/
theorem check_zero_fail :
    [renders "^05" (.ofInt 1), renders "^05" (.ofInt (-1)),
     renders "^05" (.ofFloat false 1 ['1']), renders "^05" (.ofFloat true 1 ['1']),
     renders "<05" (.ofInt 1), renders "<05" (.ofInt (-1)),
     renders "<05" (.ofFloat false 1 ['1']), renders "<05" (.ofFloat true 1 ['1'])]
    = [.ok (.error (.IncompatibleAlignment .Center)), .ok (.error (.IncompatibleAlignment .Center)),
       .ok (.error (.IncompatibleAlignment .Center)), .ok (.error (.IncompatibleAlignment .Center)),
       .ok (.error (.IncompatibleAlignment .Left)), .ok (.error (.IncompatibleAlignment .Left)),
       .ok (.error (.IncompatibleAlignment .Left)), .ok (.error (.IncompatibleAlignment .Left))] := by decide

/-- Validation: test module `width`. -/
theorem check_width :
    [renders "1" (.ofInt 123), renders "1" (.ofInt (-123)),
     renders "1" (.ofFloat false 1 ['3']), renders "1" (.ofFloat true 1 ['3']),
     renders "5" (.ofInt 1), renders "5" (.ofInt (-1)),
     renders "5" (.ofFloat false 1 ['1']), renders "5" (.ofFloat true 1 ['1']),
     rendersWith "" (.ofWidth 5) (.ofInt 1), rendersWith "" (.ofWidth 5) (.ofInt (-1)),
     rendersWith "" (.ofWidth 5) (.ofFloat false 1 ['1']),
     rendersWith "" (.ofWidth 5) (.ofFloat true 1 ['1'])]
    = [.ok (.ok "123"), .ok (.ok "-123"),
       .ok (.ok "1.3"), .ok (.ok "-1.3"),
       .ok (.ok "    1"), .ok (.ok "   -1"),
       .ok (.ok "  1.1"), .ok (.ok " -1.1"),
       .ok (.ok "    1"), .ok (.ok "   -1"),
       .ok (.ok "  1.1"), .ok (.ok " -1.1")] := by decide

/-- Validation: test module `precision`. -/
theorem check_precision :
    [renders ".2" (.ofFloat false 3 ['1','4','1','5','9']),
     renders ".7" (.ofFloat false 3 ['1','4','1','5','9']),
     renders "5.3" (.ofFloat false 1 ['2']), renders "7.3" (.ofFloat false 1 ['2']),
     renders "|^7.3" (.ofFloat false 1 ['2']), renders "v7.3" (.ofFloat false 1 ['2']),
     renders "v05.3" (.ofFloat false 1 ['2']), renders "<7.3" (.ofFloat false 1 ['2'])]
    = [.ok (.ok "3.14"), .ok (.ok "3.1415900"),
       .ok (.ok "1.200"), .ok (.ok "  1.200"),
       .ok (.ok "|1.200|"), .ok (.ok "      1.200"),
       .ok (.ok "00001.200"), .ok (.ok "1.200  ")] := by decide

/-- Validation: test module `base`, successes and the `fmt_fail` cases
expecting `NotImplemented` for floats in non-decimal bases. -/
theorem check_base :
    [renders "09b_4" (.ofNat 13), renders "04o" (.ofNat 420),
     renders "x 4" (.ofNat 0xcafebabe), renders "#X_4" (.ofNat 0xDEADBEEF),
     renders "09b_4" (.ofFloat false 0 []), renders "04o" (.ofFloat false 0 []),
     renders "x" (.ofFloat false 0 []), renders "X" (.ofFloat false 0 [])]
    = [.ok (.ok "0000_1101"), .ok (.ok "0644"),
       .ok (.ok "cafe babe"), .ok (.ok "0xDEAD_BEEF"),
       .ok (.error (.NotImplemented .Binary "f64")), .ok (.error (.NotImplemented .Octal "f64")),
       .ok (.error (.NotImplemented .LowerHex "f64")), .ok (.error (.NotImplemented .UpperHex "f64"))] := by decide

/-- Validation: test module `separator`. -/
theorem check_separator :
    [renders "" (.ofNat 123456789), renders "," (.ofNat 123456789),
     renders " " (.ofNat 123456789), renders "_" (.ofNat 123456789),
     renders "," (.ofFloat false 123456789 []),
     renders ".9," (.ofFloat false 123456789 ['8','7','6','5','4','3','2','1'])]
    = [.ok (.ok "123456789"), .ok (.ok "123,456,789"),
       .ok (.ok "123 456 789"), .ok (.ok "123_456_789"),
       .ok (.ok "123,456,789"), .ok (.ok "123,456,789.876543210")] := by decide

/-- Validation: test module `spacing`. -/
theorem check_spacing :
    [renders ",1" (.ofNat 123456789), renders " 2" (.ofNat 123456789),
     renders "_3" (.ofNat 123456789), renders ",4" (.ofFloat false 123456789 []),
     renders " 5" (.ofFloat false 123456789 []), renders "_6" (.ofFloat false 123456789 []),
     renders ".9,7" (.ofFloat false 123456789 ['8','7','6','5','4','3','2','1']),
     rendersWith "," (.ofSpacing 1) (.ofNat 123456789),
     rendersWith " " (.ofSpacing 2) (.ofNat 123456789),
     rendersWith "_" (.ofSpacing 3) (.ofNat 123456789)]
    = [.ok (.ok "1,2,3,4,5,6,7,8,9"), .ok (.ok "1 23 45 67 89"),
       .ok (.ok "123_456_789"), .ok (.ok "1,2345,6789"),
       .ok (.ok "1234 56789"), .ok (.ok "123_456789"),
       .ok (.ok "12,3456789.876543210"),
       .ok (.ok "1,2,3,4,5,6,7,8,9"), .ok (.ok "1 23 45 67 89"),
       .ok (.ok "123_456_789")] := by decide

/-- Validation: test modules `only_spacing` and `misc` (builder-made
configurations: spacing without separator groups with the default comma; a
German-style configuration). -/
theorem check_builder_cases :
    ((Builder.new.withSpacing 2).withBase .LowerHex).build.fmt (.ofNat 0x12345678) = .ok "12,34,56,78"
    ∧ ((((Builder.new.withSpacing 4).withBase .Binary).withZero true).withWidth 9).build.fmt
        (.ofNat 0b01101110) = .ok "0110,1110"
    ∧ (((Builder.new.withSeparator (some '.')).withDecimalSeparator ',').withPrecision
        (some 2)).build.fmt (.ofInt 12345) = .ok "12.345,00" := by decide

/-- Validation: the doctest literals of `src/lib.rs` and `src/num_fmt.rs`,
including the two sign/zero scenarios the spec designates as authoritative. -/
theorem check_doctests :
    [renders "-03" (.ofInt (-1)), renders "0>-3" (.ofInt (-1)),
     renders "0>7," (.ofInt 1), renders "07," (.ofInt 1),
     renders "#04b" (.ofInt 2), renders "-<6.2" (.ofFloat false 1 []),
     renders "#04x_2" (.ofInt 0), rendersWith "#04x_2" (.ofWidth 7) (.ofInt 0),
     rendersWith "-^" (.ofWidth 5) (.ofInt 1)]
    = [.ok (.ok "-01"), .ok (.ok "-001"),
       .ok (.ok "0000001"), .ok (.ok "000,001"),
       .ok (.ok "0b10"), .ok (.ok "1.00--"),
       .ok (.ok "0x00"), .ok (.ok "0x00_00"),
       .ok (.ok "--1--")] := by decide

/-!  Helper lemmas shared by the claim theorems. -/

/-- Unfolding lemma: a successful render's characters are the assembly. -/
theorem fmt_with_ok_data {f : NumFmt} {v : Numeric} {d : Dynamic} {s : String}
    (h : f.fmt_with v d = .ok s) : s.data = f.assembleChars v d := by
  unfold NumFmt.fmt_with at h
  split at h
  · exact absurd h (by simp)
  · split at h
    · exact absurd h (by simp)
    · injection h with h'
      rw [← h']

/-- Unfolding lemma: a successful render implies the digit source supplied a
digit sequence for the requested base. -/
theorem fmt_with_ok_rawDigits {f : NumFmt} {v : Numeric} {d : Dynamic} {s : String}
    (h : f.fmt_with v d = .ok s) : ∃ ds, f.rawDigits v = some ds := by
  unfold NumFmt.fmt_with at h
  split at h
  · exact absurd h (by simp)
  · split at h
    · exact absurd h (by simp)
    · next ds heq => exact ⟨ds, heq⟩

/-- Trimming only ever removes leading characters: the result is a suffix. -/
theorem trimWhile_suffix (sep : Char) (t fl : Nat) (l : List Char) :
    (trimWhile sep t fl l) <:+ l := by
  induction l with
  | nil => exact List.suffix_refl _
  | cons c rest ih =>
    unfold trimWhile
    split
    · exact ih.trans (List.suffix_cons c rest)
    · exact List.suffix_refl _

/-- Trimming tracked against a zero extra width and a positive target never
empties the list. -/
theorem trimWhile_ne_nil (sep : Char) (t : Nat) (l : List Char)
    (ht : 1 ≤ t) (hl : l ≠ []) : trimWhile sep t 0 l ≠ [] := by
  induction l with
  | nil => exact absurd rfl hl
  | cons c rest ih =>
    unfold trimWhile
    split
    · next hc =>
      refine ih ?_
      intro hrest
      rw [hrest] at hc
      simp at hc
      omega
    · simp

/-- Grouping a nonempty LSF digit sequence keeps the ones digit first. -/
theorem groupLSF_head (sep : Char) (sp : Nat) (c : Char) (tl : List Char) :
    (groupLSF sep sp (c :: tl)).head? = some c := by
  cases sp with
  | zero => rfl
  | succ sp =>
    show (joinSep sep (chunksAux sp (c :: tl).length (c :: tl))).head? = some c
    have hlen : (c :: tl).length = tl.length + 1 := by simp
    rw [hlen]
    show (joinSep sep ((c :: tl).take (sp + 1) :: chunksAux sp tl.length ((c :: tl).drop (sp + 1)))).head? = some c
    cases hrest : chunksAux sp tl.length ((c :: tl).drop (sp + 1)) with
    | nil => simp [joinSep, List.take]
    | cons x xs => simp [joinSep, List.take]

/-- Shape of the grouped integer digits: always a cons, whose head is the
ones digit of the normalised sequence, `'0'` when the raw sequence was
empty. -/
theorem grouped_shape {f : NumFmt} {v : Numeric} {d : Dynamic} {ds : List Char}
    (h : f.rawDigits v = some ds) :
    ∃ c tl, f.groupedLSF v d = some (c :: tl) ∧ (ds = [] → c = '0') := by
  have hid : ∃ c0 tl0, f.intDigitsLSF v d = some (c0 :: tl0) ∧ (ds = [] → c0 = '0') := by
    unfold NumFmt.intDigitsLSF
    rw [h]
    cases ds with
    | nil =>
      refine ⟨'0', if f.zero then List.replicate (f.zeroPadTarget v d - 1) '0' else [], ?_, fun _ => rfl⟩
      simp [padZerosLSF]
      split <;> simp
    | cons a tl =>
      refine ⟨a, if f.zero then tl ++ List.replicate (f.zeroPadTarget v d - (a :: tl).length) '0' else tl, ?_, by simp⟩
      simp [padZerosLSF]
      split <;> simp
  obtain ⟨c0, tl0, hint, hc0⟩ := hid
  unfold NumFmt.groupedLSF
  rw [hint]
  by_cases hg : f.groupingActive
  · have hh := groupLSF_head f.separatorChar (f.spacing_with d) c0 tl0
    cases hgl : groupLSF f.separatorChar (f.spacing_with d) (c0 :: tl0) with
    | nil => rw [hgl] at hh; simp at hh
    | cons x xs =>
      rw [hgl] at hh
      simp at hh
      exact ⟨x, xs, by simp [hg]; exact hgl, fun hds => hh.trans (hc0 hds)⟩
  · exact ⟨c0, tl0, by simp [hg], hc0⟩

/-- Shape of the trimmed integer part when there is no fractional display:
it is nonempty and ends in the ones digit, `'0'` when the raw sequence was
empty. -/
theorem trimmed_shape {f : NumFmt} {v : Numeric} {d : Dynamic} {ds : List Char}
    (h : f.rawDigits v = some ds) (hfrac : f.fracStr v d = []) :
    ∃ l, f.intStrTrimmed v d = some l ∧ l ≠ [] ∧ (ds = [] → l.getLast? = some '0') := by
  obtain ⟨c, tl, hg, hc⟩ := grouped_shape (d := d) h
  have hmsne : (c :: tl).reverse ≠ [] := by simp
  have hmslast : ((c :: tl).reverse).getLast? = some c := by simp
  have htarget : 1 ≤ f.zeroPadTarget v d := le_max_left _ _
  unfold NumFmt.intStrTrimmed
  rw [hg]
  by_cases hz : f.zero
  · by_cases ha : f.align = .Decimal
    · refine ⟨trimWhile f.separatorChar (f.zeroPadTarget v d) 0 ((c :: tl).reverse), by simp [hz, ha], ?_, ?_⟩
      · exact trimWhile_ne_nil _ _ _ htarget hmsne
      · intro hds
        obtain ⟨pre, hpre⟩ := trimWhile_suffix f.separatorChar (f.zeroPadTarget v d) 0 ((c :: tl).reverse)
        have hne := trimWhile_ne_nil f.separatorChar (f.zeroPadTarget v d) ((c :: tl).reverse) htarget hmsne
        rw [← hpre] at hmslast
        rw [List.getLast?_append_of_ne_nil pre hne] at hmslast
        rw [hmslast, hc hds]
    · refine ⟨trimWhile f.separatorChar (f.zeroPadTarget v d) (f.fracStr v d).length ((c :: tl).reverse), by simp [hz, ha], ?_, ?_⟩
      · simp only [hfrac, List.length_nil]
        exact trimWhile_ne_nil _ _ _ htarget hmsne
      · intro hds
        simp only [hfrac, List.length_nil]
        obtain ⟨pre, hpre⟩ := trimWhile_suffix f.separatorChar (f.zeroPadTarget v d) 0 ((c :: tl).reverse)
        have hne := trimWhile_ne_nil f.separatorChar (f.zeroPadTarget v d) ((c :: tl).reverse) htarget hmsne
        rw [← hpre] at hmslast
        rw [List.getLast?_append_of_ne_nil pre hne] at hmslast
        rw [hmslast, hc hds]
  · exact ⟨(c :: tl).reverse, by simp [hz], hmsne, fun hds => by rw [hmslast, hc hds]⟩

/-!  Claim theorems. -/

/-- Claim C1: for every configuration with the zero flag set and alignment
Left or Center, rendering any value with any dynamic parameters fails with
`IncompatibleAlignment` (so no output is produced); with alignment Right or
DecimalPoint the error never occurs for any value, base, or dynamic
parameters; and construction of such a configuration itself always succeeds
(the builder produces the configuration unchecked, for every starting
builder state). -/
theorem c1_zero_flag_alignment :
    (∀ (f : NumFmt) (v : Numeric) (d : Dynamic),
        f.zero = true → (f.align = .Left ∨ f.align = .Center) →
        f.fmt_with v d = .error (.IncompatibleAlignment f.align))
    ∧ (∀ (f : NumFmt) (v : Numeric) (d : Dynamic) (a : Align),
        (f.align = .Right ∨ f.align = .Decimal) →
        f.fmt_with v d ≠ .error (.IncompatibleAlignment a))
    ∧ (∀ (b : Builder) (a : Align),
        ((b.withZero true).withAlign a).build.zero = true
        ∧ ((b.withZero true).withAlign a).build.align = a) := by
  refine ⟨?_, ?_, ?_⟩
  · intro f v d hz ha
    have h1 : f.align ≠ .Right := by rcases ha with h | h <;> simp [h]
    have h2 : f.align ≠ .Decimal := by rcases ha with h | h <;> simp [h]
    unfold NumFmt.fmt_with
    rw [if_pos ⟨hz, h1, h2⟩]
  · intro f v d a ha h
    unfold NumFmt.fmt_with at h
    rw [if_neg (by rcases ha with h' | h' <;> simp [h'])] at h
    split at h
    · simp at h
    · simp at h
  · intro b a
    exact ⟨rfl, rfl⟩

/-- Claim C1 witness: a concrete zero-flag, Center-aligned configuration
fails with `IncompatibleAlignment` at format time. -/
theorem c1_witness :
    ({ NumFmt.default with zero := true, fill := some '0', align := .Center } : NumFmt).fmt_with
      (.ofNat 3) .default
    = .error (.IncompatibleAlignment .Center) :=
  c1_zero_flag_alignment.1 _ (.ofNat 3) .default rfl (Or.inr rfl)

/-- Claim C2: under the zero flag the integer-part digit sequence is
left-padded with `'0'` up to the effective width less 2 for a base prefix
and less 1 for a shown sign (clamped to at least 1), and grouping is applied
to the padded sequence, so separators run through the padding; concretely,
the configuration parsed from `"#04x_2"` renders 0 as `"0x00"` and, with a
dynamic width of 7, as `"0x00_00"`. -/
theorem c2_zero_padding :
    (∀ (f : NumFmt) (v : Numeric) (d : Dynamic) (ds : List Char),
        f.zero = true → f.rawDigits v = some ds → ds ≠ [] →
        f.intDigitsLSF v d
            = some (ds ++ List.replicate (f.zeroPadTarget v d - ds.length) '0')
        ∧ (ds ++ List.replicate (f.zeroPadTarget v d - ds.length) '0').length
            = max (f.zeroPadTarget v d) ds.length
        ∧ f.zeroPadTarget v d
            = max 1 (f.width_with d - (if f.hash then 2 else 0)
                - (if (f.sign_char v).isSome then 1 else 0))
        ∧ f.groupedLSF v d
            = some (if f.groupingActive
                then groupLSF f.separatorChar (f.spacing_with d)
                  (ds ++ List.replicate (f.zeroPadTarget v d - ds.length) '0')
                else ds ++ List.replicate (f.zeroPadTarget v d - ds.length) '0'))
    ∧ (NumFmt.from_str "#04x_2").map
        (fun f => (f.fmt (.ofInt 0), f.fmt_with (.ofInt 0) (.ofWidth 7)))
      = .ok (.ok "0x00", .ok "0x00_00") := by
  constructor
  · intro f v d ds hz hraw hne
    have hint : f.intDigitsLSF v d
        = some (ds ++ List.replicate (f.zeroPadTarget v d - ds.length) '0') := by
      unfold NumFmt.intDigitsLSF
      rw [hraw]
      simp [hz, padZerosLSF, List.isEmpty_iff, hne]
    refine ⟨hint, ?_, rfl, ?_⟩
    · simp [List.length_append, List.length_replicate]
      omega
    · unfold NumFmt.groupedLSF
      rw [hint]
      split <;> simp
  · decide

/-- Claim C2 witness: the zero-padding lemma applied to the concrete
configuration with zero flag and width 5 on the decimal digits of 7. -/
theorem c2_witness :
    ({ NumFmt.default with zero := true, fill := some '0', width := 5 } : NumFmt).intDigitsLSF
      (.ofNat 7) .default = some ['7', '0', '0', '0', '0'] := by
  have h := (c2_zero_padding.1
    { NumFmt.default with zero := true, fill := some '0', width := 5 }
    (.ofNat 7) .default ['7'] rfl (by decide) (by decide)).1
  simpa using h

/-- Concrete configuration parsed from `"0>-3"`: an explicit `'0'` fill with
Right alignment and width 3, zero flag clear. -/
def c3cfg : NumFmt := { NumFmt.default with fill := some '0', width := 3 }

/-- Claim C3 counterexample: the configuration parsed from `"0>-3"` has the
zero flag clear, yet renders -1 as `"-001"` with the sign before the
padding; no split into left padding, sign, digits (as the claim prescribes
for zero-flag-inactive configurations, with the model's own sign and body)
can produce that string. -/
theorem c3_counterexample :
    NumFmt.from_str "0>-3" = .ok c3cfg
    ∧ c3cfg.zero = false
    ∧ c3cfg.fmt (.ofInt (-1)) = .ok "-001"
    ∧ (c3cfg.bodyChars (.ofInt (-1)) Dynamic.default).getD [] = ['1']
    ∧ c3cfg.signChars (.ofInt (-1)) = ['-']
    ∧ c3cfg.baseMarker = []
    ∧ ∀ k m : Nat,
        String.mk (List.replicate k '0' ++ ['-'] ++ ['1'] ++ List.replicate m '0')
          ≠ "-001" := by
  refine ⟨by decide, rfl, by decide, by decide, by decide, rfl, ?_⟩
  intro k m h
  have hd : List.replicate k '0' ++ ['-'] ++ ['1'] ++ List.replicate m '0'
      = "-001".data := congrArg String.data h
  rw [show "-001".data = ['-', '0', '0', '1'] from rfl] at hd
  cases k with
  | zero => simp at hd
  | succ k => simp [List.replicate] at hd

/-- Claim C3 as amended: the assembly order is keyed on the effective fill
character rather than the zero flag.  When the fill character is `'0'`
(which is the case for every zero-flag configuration, since setting the
flag forces the fill), the order is sign, base prefix, left padding,
digits, right padding; otherwise it is left padding, sign, base prefix,
digits, right padding. -/
theorem c3_assembly_order :
    ∀ (f : NumFmt) (v : Numeric) (d : Dynamic) (s : String),
      f.fmt_with v d = .ok s →
      ∃ k r : Nat,
        ((f.fillChar = '0' ∨ f.zero = true) →
          s.data = f.signChars v ++ f.baseMarker ++ List.replicate k f.fillChar
            ++ (f.bodyChars v d).getD [] ++ List.replicate r f.fillChar)
        ∧ (¬(f.fillChar = '0' ∨ f.zero = true) →
          s.data = List.replicate k f.fillChar ++ f.signChars v ++ f.baseMarker
            ++ (f.bodyChars v d).getD [] ++ List.replicate r f.fillChar) := by
  intro f v d s h
  have hd := fmt_with_ok_data h
  refine ⟨(f.paddings v d).1, (f.paddings v d).2, ?_, ?_⟩ <;> intro hc
  · rw [hd]
    unfold NumFmt.assembleChars
    rw [if_pos hc]
  · rw [hd]
    unfold NumFmt.assembleChars
    rw [if_neg hc]

/-- Claim C3 witness: the amended order theorem applied to the parsed
`"0>-3"` configuration rendering -1 (fill `'0'`, zero flag off: sign leads). -/
theorem c3_witness :
    ∃ k r : Nat,
      ((c3cfg.fillChar = '0' ∨ c3cfg.zero = true) →
        ("-001" : String).data
          = c3cfg.signChars (.ofInt (-1)) ++ c3cfg.baseMarker
            ++ List.replicate k c3cfg.fillChar
            ++ (c3cfg.bodyChars (.ofInt (-1)) Dynamic.default).getD []
            ++ List.replicate r c3cfg.fillChar)
      ∧ (¬(c3cfg.fillChar = '0' ∨ c3cfg.zero = true) →
        ("-001" : String).data
          = List.replicate k c3cfg.fillChar ++ c3cfg.signChars (.ofInt (-1))
            ++ c3cfg.baseMarker
            ++ (c3cfg.bodyChars (.ofInt (-1)) Dynamic.default).getD []
            ++ List.replicate r c3cfg.fillChar) :=
  c3_assembly_order c3cfg (.ofInt (-1)) Dynamic.default "-001" (by decide)

/-- Splitting lemma: the assembly always contains the composed body as a
contiguous segment. -/
theorem assembleChars_split (f : NumFmt) (v : Numeric) (d : Dynamic) :
    ∃ pre post, f.assembleChars v d = pre ++ (f.bodyChars v d).getD [] ++ post := by
  unfold NumFmt.assembleChars
  split
  · exact ⟨f.signChars v ++ f.baseMarker ++ List.replicate (f.paddings v d).1 f.fillChar,
      List.replicate (f.paddings v d).2 f.fillChar, by simp [List.append_assoc]⟩
  · exact ⟨List.replicate (f.paddings v d).1 f.fillChar ++ f.signChars v ++ f.baseMarker,
      List.replicate (f.paddings v d).2 f.fillChar, by simp [List.append_assoc]⟩

/-- Nonemptiness of the composed body whenever digits were supplied. -/
theorem body_ne_nil {f : NumFmt} {v : Numeric} {d : Dynamic} {ds : List Char}
    (h : f.rawDigits v = some ds) : (f.bodyChars v d).getD [] ≠ [] := by
  cases hfs : f.fracStr v d with
  | nil =>
    obtain ⟨l, htr, hlne, _⟩ := trimmed_shape h hfs
    unfold NumFmt.bodyChars
    rw [htr, hfs]
    simpa using hlne
  | cons a tl =>
    obtain ⟨c, tl0, hg, _⟩ := grouped_shape (d := d) h
    have htr : ∃ l, f.intStrTrimmed v d = some l := by
      unfold NumFmt.intStrTrimmed
      rw [hg]
      exact ⟨_, rfl⟩
    obtain ⟨l, htr⟩ := htr
    unfold NumFmt.bodyChars
    rw [htr, hfs]
    simp

/-- Emptiness characterisation of the masking digit iterators: no digits
exactly for the value 0. -/
theorem natDigitsLSF_eq_nil {b n : Nat} (h : natDigitsLSF b n = []) : n = 0 := by
  cases n with
  | zero => rfl
  | succ n => simp [natDigitsLSF, natDigitsAux] at h

/-- Nonemptiness of the decimal integer-part digits: `to_string` always
prints at least one character. -/
theorem decDigits_ne_nil (n : Nat) : decDigits n ≠ [] := by
  unfold decDigits
  split
  · simp
  · next hn =>
    cases n with
    | zero => exact absurd rfl hn
    | succ n => simp [natDigitsLSF, natDigitsAux]

/-- Disabled fracitonal part outside the decimal base. -/
theorem fracChars_of_ne_decimal {f : NumFmt} {v : Numeric} {d : Dynamic}
    (h : f.base ≠ .Decimal) : f.fracChars v d = none := by
  unfold NumFmt.fracChars
  cases hB : f.base with
  | Decimal => exact absurd hB h
  | Binary => rfl
  | Octal => rfl
  | LowerHex => rfl
  | UpperHex => rfl

/-- Claim C4: an empty digit sequence from the digit source arises only for
the value zero (shown for the unsigned and signed integer sources; the
decimal integer part is never empty); whenever it arises the engine
synthesizes a single `'0'`, so a successful render still contains a digit
character; no successful render is ever the empty string; and the value 0
renders as `"0"` in Binary, Octal, and both hex bases under an otherwise
default configuration. -/
theorem c4_empty_digits :
    (∀ (f : NumFmt) (n : Nat), f.rawDigits (.ofNat n) = some [] → n = 0)
    ∧ (∀ (f : NumFmt) (i : Int), f.rawDigits (.ofInt i) = some [] → i = 0)
    ∧ (∀ (f : NumFmt) (v : Numeric) (d : Dynamic) (s : String),
        f.rawDigits v = some [] → f.base ≠ .Decimal →
        f.fmt_with v d = .ok s → s ≠ "" ∧ '0' ∈ s.data)
    ∧ (∀ (f : NumFmt) (v : Numeric) (d : Dynamic) (s : String),
        f.fmt_with v d = .ok s → s ≠ "")
    ∧ (({ NumFmt.default with base := .Binary } : NumFmt).fmt (.ofNat 0) = .ok "0"
        ∧ ({ NumFmt.default with base := .Octal } : NumFmt).fmt (.ofNat 0) = .ok "0"
        ∧ ({ NumFmt.default with base := .LowerHex } : NumFmt).fmt (.ofNat 0) = .ok "0"
        ∧ ({ NumFmt.default with base := .UpperHex } : NumFmt).fmt (.ofNat 0) = .ok "0") := by
  refine ⟨?_, ?_, ?_, ?_, by decide⟩
  · intro f n h
    unfold NumFmt.rawDigits at h
    cases hB : f.base <;> rw [hB] at h <;> simp [Numeric.ofNat] at h
    · exact natDigitsLSF_eq_nil h
    · exact natDigitsLSF_eq_nil h
    · exact absurd h (decDigits_ne_nil n)
    · exact natDigitsLSF_eq_nil h
    · exact natDigitsLSF_eq_nil h
  · intro f i h
    unfold NumFmt.rawDigits at h
    have habs : i.natAbs = 0 → i = 0 := by omega
    cases hB : f.base <;> rw [hB] at h <;> simp [Numeric.ofInt] at h
    · exact habs (natDigitsLSF_eq_nil h)
    · exact habs (natDigitsLSF_eq_nil h)
    · exact absurd h (decDigits_ne_nil _)
    · exact habs (natDigitsLSF_eq_nil h)
    · exact habs (natDigitsLSF_eq_nil h)
  · intro f v d s hraw hb h
    have hfs : f.fracStr v d = [] := by
      unfold NumFmt.fracStr
      rw [fracChars_of_ne_decimal hb]
    obtain ⟨l, htr, hlne, hlast⟩ := trimmed_shape hraw hfs
    have hmem : '0' ∈ l := by
      have hl := List.getLast?_eq_getLast l hlne
      rw [hlast rfl] at hl
      injection hl with hl
      rw [hl]
      exact List.getLast_mem hlne
    have hbody : (f.bodyChars v d).getD [] = l := by
      unfold NumFmt.bodyChars
      rw [htr, hfs]
      simp
    have hd := fmt_with_ok_data h
    obtain ⟨pre, post, hsplit⟩ := assembleChars_split f v d
    have hmem' : '0' ∈ s.data := by
      rw [hd, hsplit, hbody]
      simp [hmem]
    refine ⟨?_, hmem'⟩
    intro hs
    rw [hs] at hmem'
    simp at hmem'
  · intro f v d s h
    obtain ⟨ds, hraw⟩ := fmt_with_ok_rawDigits h
    have hd := fmt_with_ok_data h
    obtain ⟨pre, post, hsplit⟩ := assembleChars_split f v d
    intro hs
    rw [hs] at hd
    have : ([] : List Char) = pre ++ (f.bodyChars v d).getD [] ++ post := by
      rw [← hsplit, ← hd]
    have hnil := this.symm
    simp [List.append_eq_nil] at hnil
    exact body_ne_nil hraw hnil.2.1

/-- Claim C4 witness: the synthesized-digit theorem applied to the hex
rendering of 0 under a default configuration. -/
theorem c4_witness :
    ("0" : String) ≠ "" ∧ '0' ∈ ("0" : String).data :=
  c4_empty_digits.2.2.1 { NumFmt.default with base := .LowerHex } (.ofNat 0)
    Dynamic.default "0" (by decide) (by decide) (by decide)

/-- Concrete builder-made configuration with a spacing of 1 and no
separator, as in the repository's `only_spacing` tests. -/
def c5cfg : NumFmt := (Builder.new.withSpacing 1).build

/-- Claim C5 counterexample: with no separator configured but a spacing of
1, the decimal rendering of 12 is `"1,2"` — a grouping character (the
default comma) appears even though the separator is unset, refuting
"no grouping character appears regardless of the spacing value". -/
theorem c5_counterexample :
    c5cfg.separator = none
    ∧ c5cfg.spacing = some 1
    ∧ c5cfg.fmt (.ofNat 12) = .ok "1,2"
    ∧ ',' ∈ ("1,2" : String).data := by
  refine ⟨rfl, rfl, by decide, by decide⟩

/-- Claim C5 as amended: grouping is disabled only when both separator and
spacing are unset in the configuration (the empty format string renders
123456789 as `"123456789"`); when either is configured, the separator
(default `','`) is inserted every `spacing_with` digits of the integer
part, with spacing defaulting to 3 (the format string `","` renders
123456789 as `"123,456,789"`). -/
theorem c5_grouping :
    (∀ (f : NumFmt) (v : Numeric) (d : Dynamic),
        f.separator = none → f.spacing = none →
        f.groupingActive = false ∧ f.groupedLSF v d = f.intDigitsLSF v d)
    ∧ (∀ (f : NumFmt) (v : Numeric) (d : Dynamic) (ds : List Char) (c : Char),
        f.separator = some c →
        f.separatorChar = c ∧ f.groupingActive = true
        ∧ (f.intDigitsLSF v d = some ds →
            f.groupedLSF v d = some (groupLSF c (f.spacing_with d) ds))
        ∧ (f.spacing = none → d.spacing = none → f.spacing_with d = 3))
    ∧ (NumFmt.from_str "").map (fun f => f.fmt (.ofNat 123456789))
        = .ok (.ok "123456789")
    ∧ (NumFmt.from_str ",").map (fun f => f.fmt (.ofNat 123456789))
        = .ok (.ok "123,456,789") := by
  refine ⟨?_, ?_, by decide, by decide⟩
  · intro f v d hsep hsp
    have hga : f.groupingActive = false := by
      unfold NumFmt.groupingActive
      rw [hsep, hsp]
      rfl
    refine ⟨hga, ?_⟩
    unfold NumFmt.groupedLSF
    cases hint : f.intDigitsLSF v d with
    | none => rfl
    | some l => simp [hga]
  · intro f v d ds c hsep
    have hsc : f.separatorChar = c := by
      unfold NumFmt.separatorChar
      rw [hsep]
      rfl
    have hga : f.groupingActive = true := by
      unfold NumFmt.groupingActive
      rw [hsep]
      rfl
    refine ⟨hsc, hga, ?_, ?_⟩
    · intro hint
      unfold NumFmt.groupedLSF
      rw [hint]
      simp [hga, hsc]
    · intro hsp hdsp
      unfold NumFmt.spacing_with NumFmt.spacingVal
      rw [hsp, hdsp]
      rfl

/-- Claim C5 witness: the grouping rules applied to the separator-set `","`
configuration on the digits of 14. -/
theorem c5_witness :
    ({ NumFmt.default with separator := some ',' } : NumFmt).groupedLSF (.ofNat 14)
        Dynamic.default
      = some (groupLSF ','
          (({ NumFmt.default with separator := some ',' } : NumFmt).spacing_with
            Dynamic.default) ['4', '1']) :=
  ((c5_grouping.2.1 { NumFmt.default with separator := some ',' } (.ofNat 14)
      Dynamic.default ['4', '1'] ',' rfl).2.2.1) (by decide)

/-- Concrete configuration with the zero flag, Left alignment, and binary
base: both format-time failure conditions hold at once. -/
def c6cfg : NumFmt :=
  { NumFmt.default with
      zero := true
      fill := some '0'
      align := .Left
      base := .Binary
      width := 5 }

/-- Claim C6 counterexample: for a float (whose digit source has no binary
representation) under a zero-flag Left-aligned binary configuration, the
render fails with `IncompatibleAlignment`, not with the base error — so
"fails with `UnsupportedBase` iff the base is unsupported" is false as an
unconditional iff: the alignment check takes precedence. -/
theorem c6_counterexample :
    c6cfg.rawDigits (.ofFloat false 0 []) = none
    ∧ c6cfg.fmt (.ofFloat false 0 []) = .error (.IncompatibleAlignment .Left)
    ∧ ¬∃ t, c6cfg.fmt (.ofFloat false 0 []) = .error (.NotImplemented c6cfg.base t) := by
  refine ⟨by decide, by decide, ?_⟩
  rintro ⟨t, ht⟩
  rw [show c6cfg.fmt (.ofFloat false 0 []) = .error (.IncompatibleAlignment .Left)
    from by decide] at ht
  simp at ht

/-- Claim C6 as amended: whenever the zero-flag alignment check does not
fire, rendering fails with the base error (`Error::NotImplemented`, the
spec's `UnsupportedBase`, carrying the offending base and the type
identifier) exactly when the digit source has no representation of the
requested base; floats have none for Binary, Octal, and both hex bases; the
decimal base always has a representation, for every source. -/
theorem c6_unsupported_base :
    (∀ (f : NumFmt) (v : Numeric) (d : Dynamic),
        ¬(f.zero = true ∧ f.align ≠ .Right ∧ f.align ≠ .Decimal) →
        ((∃ t, f.fmt_with v d = .error (.NotImplemented f.base t))
            ↔ f.rawDigits v = none)
        ∧ (f.rawDigits v = none →
            f.fmt_with v d = .error (.NotImplemented f.base v.type_name)))
    ∧ (∀ (f : NumFmt) (neg : Bool) (ip : Nat) (fr : List Char),
        (f.base = .Binary ∨ f.base = .Octal ∨ f.base = .LowerHex ∨ f.base = .UpperHex) →
        f.rawDigits (.ofFloat neg ip fr) = none)
    ∧ (∀ (f : NumFmt) (v : Numeric), f.base = .Decimal →
        f.rawDigits v = some v.dec_left) := by
  refine ⟨?_, ?_, ?_⟩
  · intro f v d hok
    constructor
    · constructor
      · rintro ⟨t, ht⟩
        unfold NumFmt.fmt_with at ht
        rw [if_neg hok] at ht
        split at ht
        · assumption
        · simp at ht
      · intro hr
        refine ⟨v.type_name, ?_⟩
        unfold NumFmt.fmt_with
        rw [if_neg hok, hr]
    · intro hr
      unfold NumFmt.fmt_with
      rw [if_neg hok, hr]
  · intro f neg ip fr hb
    unfold NumFmt.rawDigits
    rcases hb with h | h | h | h <;> rw [h] <;> rfl
  · intro f v hb
    unfold NumFmt.rawDigits
    rw [hb]

/-- Claim C6 witness: the amended iff applied to a float rendered in binary
under a compatible (default Right) alignment. -/
theorem c6_witness :
    ({ NumFmt.default with base := .Binary } : NumFmt).fmt_with (.ofFloat false 0 [])
        Dynamic.default
      = .error (.NotImplemented .Binary "f64") :=
  (c6_unsupported_base.1 { NumFmt.default with base := .Binary } (.ofFloat false 0 [])
      Dynamic.default (by decide)).2 rfl

/-- Concrete configuration parsed from `".2b"`: precision 2 with binary
base. -/
def c7cfg : NumFmt := { NumFmt.default with precision := some 2, base := .Binary }

/-- Claim C7 counterexample: with an effective precision of 2 but a binary
base, the value 1 renders as `"1"` — no decimal point and zero fractional
digits, refuting "the fractional part consists of exactly p digits" for
every rendering with a set precision: precision is consulted only for the
decimal base. -/
theorem c7_counterexample :
    NumFmt.from_str ".2b" = .ok c7cfg
    ∧ c7cfg.precision_with Dynamic.default = some 2
    ∧ c7cfg.fmt (.ofNat 1) = .ok "1"
    ∧ c7cfg.fracChars (.ofNat 1) Dynamic.default = none
    ∧ ("1" : String).data.all (fun c => c ≠ c7cfg.decimalSepChar) = true := by
  refine ⟨by decide, rfl, by decide, rfl, by decide⟩

/-- Claim C7 as amended: for every decimal rendering with an effective
precision `p`, the fractional display is the decimal separator followed by
exactly `p` digits, the source's fractional digits truncated or
right-padded with `'0'` (irrespective of the fill character, which the
fractional composition never consults); with precision unset the fractional
digits pass through unchanged, and with no fractional part no decimal point
is emitted; non-decimal renderings ignore precision entirely.  The
configuration `"v05.3"` renders 1.2 as `"00001.200"`. -/
theorem c7_precision :
    (∀ (f : NumFmt) (v : Numeric) (d : Dynamic) (p : Nat),
        f.base = .Decimal → f.precision_with d = some p →
        ∃ fds, f.fracChars v d = some fds
          ∧ fds.length = p
          ∧ f.fracStr v d = f.decimalSepChar :: fds
          ∧ fds = ((v.dec_right.getD []) ++ List.replicate p '0').take p)
    ∧ (∀ (f : NumFmt) (v : Numeric) (d : Dynamic),
        f.base = .Decimal → f.precision_with d = none →
        f.fracChars v d = v.dec_right
        ∧ (v.dec_right = none → f.fracStr v d = []))
    ∧ (NumFmt.from_str "v05.3").map (fun f => f.fmt (.ofFloat false 1 ['2']))
        = .ok (.ok "00001.200") := by
  refine ⟨?_, ?_, by decide⟩
  · intro f v d p hb hp
    cases hdr : v.dec_right with
    | none =>
      refine ⟨List.replicate p '0', ?_, by simp, ?_, by simp⟩
      · unfold NumFmt.fracChars
        rw [hb, hdr, hp]
      · unfold NumFmt.fracStr NumFmt.fracChars
        rw [hb, hdr, hp]
    | some rs =>
      refine ⟨(rs ++ List.replicate p '0').take p, ?_, ?_, ?_, by simp [hdr]⟩
      · unfold NumFmt.fracChars
        rw [hb, hdr, hp]
      · simp only [List.length_take, List.length_append, List.length_replicate]
        omega
      · unfold NumFmt.fracStr NumFmt.fracChars
        rw [hb, hdr, hp]
  · intro f v d hb hp
    have hfc : f.fracChars v d = v.dec_right := by
      unfold NumFmt.fracChars
      rw [hb, hp]
      cases v.dec_right <;> rfl
    refine ⟨hfc, ?_⟩
    intro hdr
    unfold NumFmt.fracStr
    rw [hfc, hdr]

/-- Claim C7 witness: the precision rules applied to a default decimal
configuration with a dynamic precision of 3 on a source with one
fractional digit. -/
theorem c7_witness :
    ∃ fds, NumFmt.default.fracChars (.ofFloat false 1 ['2']) (.ofPrecision 3) = some fds
      ∧ fds.length = 3
      ∧ NumFmt.default.fracStr (.ofFloat false 1 ['2']) (.ofPrecision 3)
          = NumFmt.default.decimalSepChar :: fds
      ∧ fds = (((Numeric.ofFloat false 1 ['2']).dec_right.getD [])
          ++ List.replicate 3 '0').take 3 :=
  c7_precision.1 NumFmt.default (.ofFloat false 1 ['2']) (.ofPrecision 3) 3 rfl rfl

/-- Claim C8: a sign character is present exactly when the policy is
`PlusAndMinus`, or the value reports negative and the base is Decimal under
`OnlyMinus`; under `PlusAndMinus` the character is `'-'` exactly for a
reported-negative decimal rendering and `'+'` otherwise (a negative value
in a non-decimal base is treated as non-negative); under `OnlyMinus` a
reported-negative value in a non-decimal base produces no sign character at
all.  The rendered-negative predicate is the conjunction of the source's
sign and the base being Decimal. -/
theorem c8_sign_policy :
    ∀ (f : NumFmt) (v : Numeric),
      ((f.sign_char v).isSome = true ↔
        (f.sign = .PlusAndMinus ∨ (v.is_negative = true ∧ f.base = .Decimal)))
      ∧ (f.sign = .PlusAndMinus →
          ((f.sign_char v = some '-') ↔ (v.is_negative = true ∧ f.base = .Decimal))
          ∧ (¬(v.is_negative = true ∧ f.base = .Decimal) → f.sign_char v = some '+'))
      ∧ (v.is_negative = true → f.base ≠ .Decimal → f.sign = .OnlyMinus →
          f.sign_char v = none)
      ∧ f.isNegativeFor v = (v.is_negative && decide (f.base = .Decimal)) := by
  intro f v
  cases hs : f.sign <;> cases hn : v.is_negative <;> by_cases hb : f.base = .Decimal <;>
    simp [NumFmt.sign_char, NumFmt.isNegativeFor, hs, hn, hb]

/-- Claim C8 witness: the sign rules applied to a negative value in a
hexadecimal base under the `PlusAndMinus` policy: it is treated as
non-negative and receives `'+'`. -/
theorem c8_witness :
    ({ NumFmt.default with sign := .PlusAndMinus, base := .LowerHex } : NumFmt).sign_char
      (.ofInt (-5)) = some '+' :=
  ((c8_sign_policy { NumFmt.default with sign := .PlusAndMinus, base := .LowerHex }
      (.ofInt (-5))).2.1 rfl).2 (by decide)

/-- Concrete configuration parsed from `"v5"`: DecimalPoint alignment with
width 5. -/
def c9cfg : NumFmt := { NumFmt.default with align := .Decimal, width := 5 }

/-- Claim C9 counterexample: under DecimalPoint alignment with width 5, the
value 123.456 composes to a 7-character body — at least the requested
width — yet the render is `"  123.456"`: fill characters are emitted and
the rendered length exceeds the unpadded composed length, because
DecimalPoint alignment pads by `width - anchor` irrespective of the total
composed length. -/
theorem c9_counterexample :
    NumFmt.from_str "v5" = .ok c9cfg
    ∧ c9cfg.fmt (.ofFloat false 123 ['4', '5', '6']) = .ok "  123.456"
    ∧ c9cfg.width_with Dynamic.default
        ≤ ((c9cfg.bodyChars (.ofFloat false 123 ['4', '5', '6']) Dynamic.default).getD []).length
    ∧ ("  123.456" : String).length
        ≠ (c9cfg.signChars (.ofFloat false 123 ['4', '5', '6'])).length
          + c9cfg.baseMarker.length
          + ((c9cfg.bodyChars (.ofFloat false 123 ['4', '5', '6']) Dynamic.default).getD []).length := by
  decide

/-- Claim C9 as amended: every successful render contains the composed body
contiguously and is at least as long as it (numeric content is never
truncated); and for Right, Left, and Center alignment — though not for
DecimalPoint, which pads against the decimal anchor — when the effective
width is at most the composed length, no fill is emitted and the rendered
length is exactly the body length plus the sign and base-prefix lengths. -/
theorem c9_width_minimum :
    (∀ (f : NumFmt) (v : Numeric) (d : Dynamic) (s : String),
        f.fmt_with v d = .ok s →
        (∃ pre post, s.data = pre ++ (f.bodyChars v d).getD [] ++ post)
        ∧ ((f.bodyChars v d).getD []).length ≤ s.length)
    ∧ (∀ (f : NumFmt) (v : Numeric) (d : Dynamic) (s : String),
        f.fmt_with v d = .ok s → f.align ≠ .Decimal →
        f.width_with d ≤ ((f.bodyChars v d).getD []).length →
        s.length = (f.signChars v).length + f.baseMarker.length
          + ((f.bodyChars v d).getD []).length) := by
  constructor
  · intro f v d s h
    have hd := fmt_with_ok_data h
    obtain ⟨pre, post, hsplit⟩ := assembleChars_split f v d
    refine ⟨⟨pre, post, by rw [hd, hsplit]⟩, ?_⟩
    have hlen : s.length = s.data.length := rfl
    rw [hlen, hd, hsplit]
    simp only [List.length_append]
    omega
  · intro f v d s h hal hw
    have hd := fmt_with_ok_data h
    have hused : f.width_with d - ((f.bodyChars v d).getD []).length = 0 :=
      Nat.sub_eq_zero_of_le hw
    have hp : f.paddings v d = (0, 0) := by
      unfold NumFmt.paddings
      cases ha : f.align with
      | Decimal => exact absurd ha hal
      | Right => simp [hused]
      | Left => simp [hused]
      | Center => simp [hused]
    have hlen : s.length = s.data.length := rfl
    rw [hlen, hd]
    unfold NumFmt.assembleChars
    rw [hp]
    split <;> simp [List.length_append] <;> omega

/-- Claim C9 witness: the no-padding equality applied to the default
configuration (Right alignment, width 0) rendering 42. -/
theorem c9_witness :
    ("42" : String).length
      = (NumFmt.default.signChars (.ofNat 42)).length + NumFmt.default.baseMarker.length
        + ((NumFmt.default.bodyChars (.ofNat 42) Dynamic.default).getD []).length :=
  c9_width_minimum.2 NumFmt.default (.ofNat 42) Dynamic.default "42"
    (by decide) (by decide) (by decide)

/-- Claim C10: for a decimal rendering with effective precision exactly 0,
the fractional display is the decimal separator followed by no digits —
every successful render contains the separator — even when the value has no
fractional part; concretely the integer 1 renders as `"1."` both with a
configured precision 0 and with a dynamic precision override of 0. -/
theorem c10_precision_zero :
    (∀ (f : NumFmt) (v : Numeric) (d : Dynamic),
        f.base = .Decimal → f.precision_with d = some 0 →
        f.fracChars v d = some []
        ∧ f.fracStr v d = [f.decimalSepChar]
        ∧ ∀ s, f.fmt_with v d = .ok s → f.decimalSepChar ∈ s.data)
    ∧ ({ NumFmt.default with precision := some 0 } : NumFmt).fmt (.ofInt 1) = .ok "1."
    ∧ NumFmt.default.fmt_with (.ofInt 1) (.ofPrecision 0) = .ok "1." := by
  refine ⟨?_, by decide, by decide⟩
  intro f v d hb hp
  have hfc : f.fracChars v d = some [] := by
    unfold NumFmt.fracChars
    rw [hb, hp]
    cases v.dec_right <;> simp
  have hfs : f.fracStr v d = [f.decimalSepChar] := by
    unfold NumFmt.fracStr
    rw [hfc]
  refine ⟨hfc, hfs, ?_⟩
  intro s h
  obtain ⟨ds, hraw⟩ := fmt_with_ok_rawDigits h
  have hd := fmt_with_ok_data h
  obtain ⟨pre, post, hsplit⟩ := assembleChars_split f v d
  obtain ⟨c, tl0, hg, _⟩ := grouped_shape (d := d) hraw
  have htr : ∃ l, f.intStrTrimmed v d = some l := by
    unfold NumFmt.intStrTrimmed
    rw [hg]
    exact ⟨_, rfl⟩
  obtain ⟨l, htr⟩ := htr
  have hbody : (f.bodyChars v d).getD [] = l ++ [f.decimalSepChar] := by
    unfold NumFmt.bodyChars
    rw [htr, hfs]
    simp
  rw [hd, hsplit, hbody]
  simp

/-- Claim C10 witness: the zero-precision rules applied to the default
configuration with precision 0 rendering the integer 1. -/
theorem c10_witness :
    ({ NumFmt.default with precision := some 0 } : NumFmt).fracStr (.ofInt 1) Dynamic.default
      = [({ NumFmt.default with precision := some 0 } : NumFmt).decimalSepChar] :=
  (c10_precision_zero.1 { NumFmt.default with precision := some 0 } (.ofInt 1)
      Dynamic.default rfl rfl).2.1

end NumRuntimeFmt
